import Mathlib

/-!
Verification of the quiz-solving agent service (agent control loop in
`agent.py`, HTTP front end in `main.py`, tools in `tools/`), via a shallow
embedding of its message data model, routing logic, context trimming,
deadline override, graph execution and endpoint handler.

Effectful collaborators (the language model, subprocesses, the network) are
passed in as explicit function parameters; wall-clock times are rationals;
Python dictionaries become association structures or `Option`-valued fields.
-/

namespace QuizAgent

/-- Message roles, as used by the langchain message classes
(`system` / `human` / `ai` / `tool`).  `user` is the `human` role. -/
inductive Role where
  | system
  | user
  | assistant
  | tool
deriving DecidableEq, Repr

/-- One element of a list-valued message content.  In Python such an element
is either a dict (whose `"text"` entry, if present, holds the textual part)
or some non-dict value such as a plain string. -/
inductive ContentPart where
  | dict (text : Option String)
  | str (s : String)
deriving DecidableEq, Repr

/-- A message content payload: a plain string, a list of content parts, or
absent (`None`, e.g. for messages carrying only tool calls). -/
inductive Content where
  | text (s : String)
  | parts (l : List ContentPart)
  | none
deriving DecidableEq, Repr

/-- A structured tool-call request attached to an assistant message. -/
structure ToolCall where
  name : String
  args : String
  id : String
deriving DecidableEq, Repr

/-- A conversation message.  `finish_reason` models the
`response_metadata["finish_reason"]` entry (`Option.none` when the key is
absent); `tool_calls = []` models both an absent and an empty
`tool_calls` attribute (both are falsy in Python). -/
structure Message where
  role : Role
  content : Content
  tool_calls : List ToolCall := []
  finish_reason : Option String := Option.none
deriving DecidableEq, Repr

/-- Python's `str.strip()`: remove leading and trailing whitespace.
Implemented structurally over the character list so that it reduces in the
kernel. -/
def pyStrip (s : String) : String :=
  ⟨((s.data.dropWhile Char.isWhitespace).reverse.dropWhile
      Char.isWhitespace).reverse⟩

/-- The four targets of the conditional edge from the agent node:
`handle_malformed`, `tools`, `END`, `agent`. -/
inductive Route where
  | repair
  | tools
  | done
  | agent
deriving DecidableEq, Repr

/-- `determine_next_step` from `agent.py`: checks for a
`MALFORMED_FUNCTION_CALL` finish reason, then for tool calls, then for the
`"END"` termination token in a string content or in the `"text"` entry of
the first dict element of a list content; otherwise routes back to the
agent node. -/
def determine_next_step (last_message : Message) : Route :=
  if last_message.finish_reason = some "MALFORMED_FUNCTION_CALL" then
    Route.repair
  else if last_message.tool_calls ≠ [] then
    Route.tools
  else
    match last_message.content with
    | Content.text s => if pyStrip s = "END" then Route.done else Route.agent
    | Content.parts (ContentPart.dict t :: _) =>
        if pyStrip (t.getD "") = "END" then Route.done else Route.agent
    | _ => Route.agent

/-- The text of a content part: the `"text"` entry of a dict part
(defaulting to the empty string), or a raw string part itself. -/
def partText : ContentPart → String
  | ContentPart.dict t => t.getD ""
  | ContentPart.str s => s

/-- The spec's notion of the flattened textual content of a message:
a plain string is itself, a list of content parts is flattened by
concatenating the text of every part, absent content flattens to empty. -/
def specFlattenedText : Content → String
  | Content.text s => s
  | Content.parts l => String.join (l.map partText)
  | Content.none => ""

/-- The END check the code actually performs on a content payload:
a plain string trimming to `"END"`, or a list whose first element is a
dict whose `"text"` entry (defaulting to `""`) strips to `"END"`. -/
def firstPartEndSignal : Content → Bool
  | Content.text s => pyStrip s == "END"
  | Content.parts (ContentPart.dict t :: _) => pyStrip (t.getD "") == "END"
  | _ => false

/-! ## Constants and fixed messages from `agent.py` -/

/-- `MAX_RECURSION_DEPTH` from `agent.py` line 24. -/
def MAX_RECURSION_DEPTH : Nat := 5000

/-- `TOKEN_LIMIT` from `agent.py` line 25. -/
def TOKEN_LIMIT : Nat := 60000

/-- `QUIZ_SYSTEM_PROMPT`, the operating instructions, parameterized by the
configured email and secret (the Python source interpolates the `EMAIL` and
`SECRET` environment variables into an f-string; the surrounding prose is
condensed here, which no claim inspects). -/
def QUIZ_SYSTEM_PROMPT (email secret : String) : String :=
  "You are an autonomous quiz-solving agent.\n"
    ++ "Load each quiz page from the given URL, extract instructions, "
    ++ "solve tasks exactly, submit answers only to the correct endpoint, "
    ++ "follow new URLs until none remain, then output END.\n"
    ++ "Include:\n    email = " ++ email ++ "\n    secret = " ++ secret

/-- The system message seeded by `run_agent`. -/
def system_message (email secret : String) : Message :=
  { role := Role.system, content := Content.text (QUIZ_SYSTEM_PROMPT email secret) }

/-- The initial user message seeded by `run_agent`: the starting task URL. -/
def initial_user_message (quiz_url : String) : Message :=
  { role := Role.user, content := Content.text quiz_url }

/-- `initial_message_stack` from `run_agent`: one system message followed by
one user message carrying the task URL. -/
def initial_message_stack (email secret quiz_url : String) : List Message :=
  [system_message email secret, initial_user_message quiz_url]

/-- The `timeout_instruction` `HumanMessage` injected by the deadline
override in `quiz_processing_node`. -/
def timeoutMessage : Message :=
  { role := Role.user
    content := Content.text ("You have exceeded the time limit for this task "
      ++ "(over 180 seconds).\nImmediately call the `post_request` tool and "
      ++ "submit a WRONG answer for the CURRENT quiz.") }

/-- The `context_reminder` `HumanMessage` injected when trimming has removed
every human message; it names the current task URL. -/
def reminderMessage (current_quiz_url : String) : Message :=
  { role := Role.user
    content := Content.text ("Context cleared due to length. "
      ++ "Continue processing URL: " ++ current_quiz_url) }

/-- The corrective message returned by `handle_json_error_node`. -/
def repairMessage : Message :=
  { role := Role.user
    content := Content.text ("SYSTEM ERROR: Your last tool call was Malformed "
      ++ "(Invalid JSON). Please rewrite the code and try again. Ensure you "
      ++ "escape newlines and quotes correctly inside the JSON.") }

/-- `handle_json_error_node` from `agent.py`: returns the single corrective
user message to append to the conversation. -/
def handle_json_error_node : List Message := [repairMessage]

/-! ## Context trimming

`quiz_processing_node` calls langchain's
`trim_messages(strategy="last", include_system=True, start_on="human")`.
Its semantics: when the conversation starts with a system message, that
message is held aside and the longest suffix of the remaining messages is
kept whose cost together with the system message fits the budget; the kept
suffix is then shortened from the front until it starts on a human message
(if no human message remains, the system message is dropped too and the
result is empty).  The model token counter is abstracted as an additive
per-message cost, which is what makes the binary search of the library
implementation coincide with the longest fitting suffix. -/

/-- Total cost of a message list under a per-message token cost. -/
def costSum (cost : Message → Nat) (msgs : List Message) : Nat :=
  (msgs.map cost).sum

/-- The longest suffix of a message list whose total cost fits the budget. -/
def maxFitSuffix (cost : Message → Nat) (budget : Nat) :
    List Message → List Message
  | [] => []
  | m :: rest =>
      if costSum cost (m :: rest) ≤ budget then m :: rest
      else maxFitSuffix cost budget rest

/-- Drop messages from the front until the first one is human-authored
(the `start_on="human"` boundary alignment). -/
def dropUntilHuman : List Message → List Message
  | [] => []
  | m :: rest => if m.role = Role.user then m :: rest else dropUntilHuman rest

/-- Shallow embedding of the `trim_messages` call made by
`quiz_processing_node` (strategy last, include system, start on human). -/
def trim_messages (cost : Message → Nat) (max_tokens : Nat) :
    List Message → List Message
  | [] => []
  | m0 :: rest =>
      if m0.role = Role.system then
        if cost m0 ≤ max_tokens then
          let kept := maxFitSuffix cost (max_tokens - cost m0) rest
          let aligned := dropUntilHuman kept
          if aligned = [] then [] else m0 :: aligned
        else []
      else dropUntilHuman (maxFitSuffix cost max_tokens (m0 :: rest))

/-! ## The agent node -/

/-- The deadline-overrun test of `quiz_processing_node`: only evaluated when
a start time is recorded for the current URL (`previous_time is not None`);
then `time_difference >= 180 or (time_offset != "0" and
(current_time - float(time_offset)) > 90)`. -/
def overrunTriggered (now offset : ℚ) : Option ℚ → Bool
  | some previous_time =>
      decide (now - previous_time ≥ 180)
        || ((offset != 0) && decide (now - offset > 90))
  | Option.none => false

/-- `any(msg.type == "human" for msg in trimmed_context)`. -/
def hasHumanMessage (msgs : List Message) : Bool :=
  msgs.any (fun msg => msg.role == Role.user)

/-- The outcome of one `quiz_processing_node` step: the context passed to
`language_model.invoke`, the single response message the node returns (which
`add_messages` appends to the stored conversation), and whether the deadline
override path was taken. -/
structure NodeResult where
  invoked : List Message
  response : Message
  overrode : Bool
deriving Repr

/-- `quiz_processing_node` from `agent.py`.  `invoke` abstracts
`language_model.invoke`, `cost` the model token counter, `now` is
`time.time()`, `current_url` is `os.getenv("url")`, `url_time` the shared
timing store, `offset` the `offset` environment value (as a number, `0`
standing for the default string `"0"`). -/
def quiz_processing_node (invoke : List Message → Message)
    (cost : Message → Nat) (now offset : ℚ) (current_url : Option String)
    (url_time : String → Option ℚ) (messages : List Message) : NodeResult :=
  let previous_time := current_url.bind url_time
  if overrunTriggered now offset previous_time then
    let ctx := messages ++ [timeoutMessage]
    { invoked := ctx, response := invoke ctx, overrode := true }
  else
    let trimmed_context := trim_messages cost TOKEN_LIMIT messages
    let ctx :=
      if hasHumanMessage trimmed_context then trimmed_context
      else trimmed_context ++ [reminderMessage (current_url.getD "Unknown URL")]
    { invoked := ctx, response := invoke ctx, overrode := false }

/-! ## The workflow graph and its execution

`workflow_graph` wires `agent`, `tools` (a `ToolNode` over the manifest) and
`handle_malformed` with `determine_next_step` as the conditional edge from
`agent`; `run_agent` invokes the compiled graph with
`recursion_limit = MAX_RECURSION_DEPTH`.  The langgraph engine executes one
node per step and raises a recursion error when the step budget is spent
before reaching `END`; fuel models that step budget.  `runTools` abstracts
the `ToolNode` (one result message per requested call), `invoke` the model
gateway. -/

/-- The three graph nodes (`agent`, `tools`, `handle_malformed`). -/
inductive GraphNode where
  | agent
  | tools
  | repair
deriving DecidableEq, Repr

/-- Accumulated run statistics: the stored conversation plus counters for
AGENT entries and model-gateway invocations (each AGENT entry makes exactly
one gateway call). -/
structure RunStats where
  messages : List Message
  agentEntries : Nat
  gatewayCalls : Nat
deriving Repr

/-- Outcome of driving the graph: normal completion at `END`, or the
recursion-ceiling error with the statistics at the moment of abort. -/
inductive RunOutcome where
  | finished (st : RunStats)
  | recursionLimitExceeded (st : RunStats)
deriving Repr

/-- The statistics carried by an outcome. -/
def RunOutcome.stats : RunOutcome → RunStats
  | RunOutcome.finished st => st
  | RunOutcome.recursionLimitExceeded st => st

/-- The tool calls of the latest message (what the `ToolNode` executes). -/
def lastToolCalls (msgs : List Message) : List ToolCall :=
  match msgs.getLast? with
  | some m => m.tool_calls
  | Option.none => []

/-- The state update of one agent-node step: append the node's single
response and count one AGENT entry and one gateway call. -/
def afterAgent (st : RunStats) (r : NodeResult) : RunStats :=
  { messages := st.messages ++ [r.response]
    agentEntries := st.agentEntries + 1
    gatewayCalls := st.gatewayCalls + 1 }

/-- One-node-per-step execution of the compiled workflow graph under a step
budget (`recursion_limit`).  The agent node runs `quiz_processing_node`,
appends its single response and routes via `determine_next_step` on that
response; the tools node appends the tool results and returns to the agent;
the repair node appends the corrective message and returns to the agent;
an exhausted budget aborts with the recursion error. -/
def stepGraph (invoke : List Message → Message)
    (runTools : List ToolCall → List Message) (cost : Message → Nat)
    (now offset : ℚ) (current_url : Option String)
    (url_time : String → Option ℚ) :
    Nat → GraphNode → RunStats → RunOutcome
  | 0, _, st => RunOutcome.recursionLimitExceeded st
  | fuel + 1, GraphNode.agent, st =>
      let r := quiz_processing_node invoke cost now offset current_url
        url_time st.messages
      match determine_next_step r.response with
      | Route.done => RunOutcome.finished (afterAgent st r)
      | Route.tools => stepGraph invoke runTools cost now offset current_url
          url_time fuel GraphNode.tools (afterAgent st r)
      | Route.repair => stepGraph invoke runTools cost now offset current_url
          url_time fuel GraphNode.repair (afterAgent st r)
      | Route.agent => stepGraph invoke runTools cost now offset current_url
          url_time fuel GraphNode.agent (afterAgent st r)
  | fuel + 1, GraphNode.tools, st =>
      stepGraph invoke runTools cost now offset current_url url_time fuel
        GraphNode.agent
        { st with messages := st.messages ++ runTools (lastToolCalls st.messages) }
  | fuel + 1, GraphNode.repair, st =>
      stepGraph invoke runTools cost now offset current_url url_time fuel
        GraphNode.agent
        { st with messages := st.messages ++ handle_json_error_node }

/-- `run_agent` from `agent.py`: seed the conversation with the system
prompt and the task URL, then drive the compiled graph from the `agent`
node with `recursion_limit = MAX_RECURSION_DEPTH`. -/
def run_agent (invoke : List Message → Message)
    (runTools : List ToolCall → List Message) (cost : Message → Nat)
    (now offset : ℚ) (current_url : Option String)
    (url_time : String → Option ℚ) (email secret quiz_url : String) :
    RunOutcome :=
  stepGraph invoke runTools cost now offset current_url url_time
    MAX_RECURSION_DEPTH GraphNode.agent
    { messages := initial_message_stack email secret quiz_url
      agentEntries := 0
      gatewayCalls := 0 }

/-! ## HTTP front end (`main.py`) -/

/-- Process-wide state touched by `/solve`: the `shared_store` dictionaries
`url_time` and `BASE64_STORE`, and the `url` / `offset` environment
entries. -/
structure ServerState where
  url_time : List (String × ℚ)
  BASE64_STORE : List (String × String)
  env_url : Option String
  env_offset : Option String
deriving DecidableEq, Repr

/-- A parsed `/solve` request body: the `url` and `secret` entries of the
JSON object, each `Option.none` when the key is absent. -/
structure SolveRequest where
  url : Option String
  secret : Option String
deriving DecidableEq, Repr

/-- The three responses `process_quiz_request` can produce: the 400
`Invalid JSON` rejection, the 403 `Invalid secret` rejection, and the 200
`{status: "ok"}` acknowledgment. -/
inductive SolveResponse where
  | invalidJson
  | invalidSecret
  | ok
deriving DecidableEq, Repr

/-- The HTTP status code of each response. -/
def SolveResponse.statusCode : SolveResponse → Nat
  | SolveResponse.invalidJson => 400
  | SolveResponse.invalidSecret => 403
  | SolveResponse.ok => 200

/-- `process_quiz_request` from `main.py`.  `request_json` is `Option.none`
when the body fails to parse as JSON; an unparseable, empty or
field-missing body raises the 400 `Invalid JSON` error (Python rejects
empty-string fields too, because `not quiz_url` / `not provided_secret`
are true on `""`); a wrong secret raises 403.  On acceptance the shared
dictionaries are cleared, the `url` / `offset` environment entries are
reset, the start time of the accepted URL is recorded, and `run_agent` is
scheduled as background work (returned as the list of scheduled task
URLs). -/
def process_quiz_request (AUTH_SECRET : String) (now : ℚ)
    (request_json : Option SolveRequest) (st : ServerState) :
    SolveResponse × ServerState × List String :=
  match request_json with
  | Option.none => (SolveResponse.invalidJson, st, [])
  | some request_data =>
    match request_data.url, request_data.secret with
    | some quiz_url, some provided_secret =>
        if quiz_url = "" ∨ provided_secret = "" then
          (SolveResponse.invalidJson, st, [])
        else if provided_secret ≠ AUTH_SECRET then
          (SolveResponse.invalidSecret, st, [])
        else
          (SolveResponse.ok,
            { url_time := [(quiz_url, now)]
              BASE64_STORE := []
              env_url := some quiz_url
              env_offset := some "0" },
            [quiz_url])
    | _, _ => (SolveResponse.invalidJson, st, [])

/-! ## Tools (`tools/run_code.py`, `tools/download_file.py`,
`tools/web_scraper.py`)

Each tool body performs I/O (subprocess, network, browser); the body is
abstracted as an `Except`-valued parameter — `Except.error e` is the body
raising an exception whose `str()` is `e` — and the embedded tool is the
`try/except` wrapper around it. -/

/-- Python string slicing `s[:n]`, structurally over the character list. -/
def pyTake (s : String) (n : Nat) : String := ⟨s.data.take n⟩

/-- The value returned by `run_code`: either a bare truncated string or the
documented `{stdout, stderr, return_code}` dictionary. -/
inductive RunCodeResult where
  | text (s : String)
  | dict (stdout stderr : String) (return_code : Int)
deriving DecidableEq, Repr

/-- `run_code` from `tools/run_code.py`: on success, a stdout of length
≥ 10000 is returned as a bare truncated string (discarding stderr and the
exit code); otherwise a stderr of length ≥ 10000 is returned the same way;
otherwise the full dictionary is returned.  An exception anywhere in the
body is caught and returned as `{stdout: "", stderr: str(e),
return_code: -1}`. -/
def run_code (execution : Except String (String × String × Int)) :
    RunCodeResult :=
  match execution with
  | Except.ok (std_output, std_error, returncode) =>
      if std_output.length ≥ 10000 then
        RunCodeResult.text (pyTake std_output 10000
          ++ "...truncated due to large size")
      else if std_error.length ≥ 10000 then
        RunCodeResult.text (pyTake std_error 10000
          ++ "...truncated due to large size")
      else RunCodeResult.dict std_output std_error returncode
  | Except.error execution_error =>
      RunCodeResult.dict "" execution_error (-1)

/-- `download_file` from `tools/download_file.py`: on success returns the
target filename; any exception is caught and returned as an error string. -/
def download_file (request_get : Except String Unit)
    (source_url target_filename : String) : String :=
  match request_get with
  | Except.ok _ => target_filename
  | Except.error download_error =>
      "Error downloading file: " ++ download_error

/-- The value returned by `get_rendered_html`: the rendered page dict or an
error dict. -/
inductive ScrapeResult where
  | page (html : String) (images : List String) (url : String)
  | error (msg : String)
deriving DecidableEq, Repr

/-- `get_rendered_html` from `tools/web_scraper.py`: renders the page
(body abstracted as the HTML text and extracted image links), truncating
HTML beyond 300000 characters; any exception is caught and returned as an
error result. -/
def get_rendered_html (render : Except String (String × List String))
    (target_url : String) : ScrapeResult :=
  match render with
  | Except.ok (html_content, image_urls) =>
      if html_content.length > 300000 then
        ScrapeResult.page (pyTake html_content 300000
          ++ "... [TRUNCATED DUE TO SIZE]") image_urls target_url
      else ScrapeResult.page html_content image_urls target_url
  | Except.error e =>
      ScrapeResult.error ("Error fetching/rendering page: " ++ e)

/-- Modelled from the spec: the `post_request` tool implementation is not
under `src/`; per §4.4 every manifest capability catches any internal
failure and returns it as a textual error result instead of raising. -/
def post_request (body : Except String String) : String :=
  match body with
  | Except.ok r => r
  | Except.error e => "Error: " ++ e

/-- Modelled from the spec: the `add_dependencies` tool implementation is
not under `src/`; per §4.4 it catches any internal failure and returns it
as a textual error result instead of raising. -/
def add_dependencies (body : Except String String) : String :=
  match body with
  | Except.ok r => r
  | Except.error e => "Error: " ++ e

/-- Modelled from the spec: the `ocr_image_tool` implementation is not
under `src/`; per §4.4 it catches any internal failure and returns it as a
textual error result instead of raising. -/
def ocr_image_tool (body : Except String String) : String :=
  match body with
  | Except.ok r => r
  | Except.error e => "Error: " ++ e

/-- Modelled from the spec: the `transcribe_audio` tool implementation is
not under `src/`; per §4.4 it catches any internal failure and returns it
as a textual error result instead of raising. -/
def transcribe_audio (body : Except String String) : String :=
  match body with
  | Except.ok r => r
  | Except.error e => "Error: " ++ e

/-- Modelled from the spec: the `encode_image_to_base64` tool
implementation is not under `src/`; per §4.4 it catches any internal
failure and returns it as a textual error result instead of raising. -/
def encode_image_to_base64 (body : Except String String) : String :=
  match body with
  | Except.ok r => r
  | Except.error e => "Error: " ++ e

/-! ## Theorems -/

/-- C1 counterexample: an assistant message with no tool calls and no
malformed-call reason whose list content flattens (concatenating all text
parts) to exactly `"END"`, yet which routes back to AGENT because the code
only inspects the first content part. -/
theorem routing_end_flattened_counterexample :
    let m : Message :=
      { role := Role.assistant
        content := Content.parts [ContentPart.dict (some ""),
                                  ContentPart.dict (some "END")] }
    pyStrip (specFlattenedText m.content) = "END"
      ∧ m.tool_calls = []
      ∧ m.finish_reason ≠ some "MALFORMED_FUNCTION_CALL"
      ∧ determine_next_step m ≠ Route.done
      ∧ determine_next_step m = Route.agent := by
  refine ⟨rfl, rfl, by decide, by decide, rfl⟩

/-- C1 (amended): for a message with no tool calls and no
malformed-function-call reason, the route is DONE iff the content is a
plain string trimming to `"END"` or a list whose first element is a dict
whose `"text"` entry strips to `"END"`; in every other case the route is
back to AGENT. -/
theorem routing_end_amended (m : Message)
    (hfr : m.finish_reason ≠ some "MALFORMED_FUNCTION_CALL")
    (htc : m.tool_calls = []) :
    (determine_next_step m = Route.done ↔ firstPartEndSignal m.content = true)
      ∧ (firstPartEndSignal m.content = false →
          determine_next_step m = Route.agent) := by
  unfold determine_next_step firstPartEndSignal
  rw [if_neg hfr, if_neg (by simp [htc])]
  rcases m with ⟨r, c, tc, fr⟩
  rcases c with s | l | _
  · by_cases h : pyStrip s = "END" <;> simp [h]
  · rcases l with _ | ⟨p, rest⟩
    · simp
    · rcases p with t | s
      · by_cases h : pyStrip (t.getD "") = "END" <;> simp [h]
      · simp
  · simp

/-- Witness for `routing_end_amended` at a concrete plain-string `"END"`
message. -/
theorem routing_end_amended_witness :
    let m : Message := { role := Role.assistant, content := Content.text " END " }
    (determine_next_step m = Route.done ↔ firstPartEndSignal m.content = true)
      ∧ (firstPartEndSignal m.content = false →
          determine_next_step m = Route.agent) :=
  routing_end_amended _ (by decide) rfl

/-- C4: a message whose finish reason is `MALFORMED_FUNCTION_CALL` always
routes to REPAIR (hence never to TOOLS or DONE), even when it also carries
tool calls or END-like text; a non-malformed message carrying at least one
tool call always routes to TOOLS. -/
theorem routing_malformed_and_tools (m : Message) :
    (m.finish_reason = some "MALFORMED_FUNCTION_CALL" →
        determine_next_step m = Route.repair)
      ∧ (m.finish_reason ≠ some "MALFORMED_FUNCTION_CALL" →
          m.tool_calls ≠ [] → determine_next_step m = Route.tools) := by
  constructor
  · intro h
    unfold determine_next_step
    rw [if_pos h]
  · intro h htc
    unfold determine_next_step
    rw [if_neg h, if_pos htc]

/-- Witness for `routing_malformed_and_tools`: a malformed message that
also carries a tool call and END text still routes to REPAIR, and a
non-malformed message with a tool call routes to TOOLS. -/
theorem routing_malformed_and_tools_witness :
    determine_next_step
        { role := Role.assistant
          content := Content.text "END"
          tool_calls := [{ name := "run_code", args := "x", id := "1" }]
          finish_reason := some "MALFORMED_FUNCTION_CALL" } = Route.repair
      ∧ determine_next_step
          { role := Role.assistant
            content := Content.none
            tool_calls := [{ name := "run_code", args := "x", id := "1" }]
            finish_reason := some "STOP" } = Route.tools :=
  ⟨(routing_malformed_and_tools _).1 rfl,
   (routing_malformed_and_tools _).2 (by decide) (by decide)⟩

/-- C3 counterexample: the offset condition alone does not trigger the
override.  With no recorded start time for the current URL
(`url_time.get(current_url)` is `None`), a non-zero offset with
`now - offset > 90` still takes the normal trim-and-invoke path: the
override flag is false, the invoked context is the trimmed view, and the
override instruction is nowhere in it. -/
theorem override_offset_alone_counterexample :
    ((100 : ℚ) ≠ 0 ∧ (300 : ℚ) - 100 > 90)
      ∧ (quiz_processing_node
            (fun _ => { role := Role.assistant, content := Content.text "ok" })
            (fun _ => 1) 300 100 (some "http://x/q1") (fun _ => Option.none)
            (initial_message_stack "e" "s" "http://x/q1")).overrode = false
      ∧ (quiz_processing_node
            (fun _ => { role := Role.assistant, content := Content.text "ok" })
            (fun _ => 1) 300 100 (some "http://x/q1") (fun _ => Option.none)
            (initial_message_stack "e" "s" "http://x/q1")).invoked
          = initial_message_stack "e" "s" "http://x/q1"
      ∧ timeoutMessage ∉ (quiz_processing_node
            (fun _ => { role := Role.assistant, content := Content.text "ok" })
            (fun _ => 1) 300 100 (some "http://x/q1") (fun _ => Option.none)
            (initial_message_stack "e" "s" "http://x/q1")).invoked := by
  refine ⟨⟨by norm_num, by norm_num⟩, rfl, rfl, by decide⟩

/-- C3 (amended): provided a start time is recorded for the current URL,
either overrun condition alone (elapsed ≥ 180, or offset non-zero and
now − offset > 90) triggers the override: the step skips trimming, adds
exactly one wrong-answer override instruction, invokes the model with the
full conversation plus that single instruction, and the appended message is
the model's response to it. -/
theorem deadline_override_amended
    (invoke : List Message → Message) (cost : Message → Nat)
    (now offset : ℚ) (current_url : Option String)
    (url_time : String → Option ℚ) (messages : List Message)
    (u : String) (t : ℚ) (r : NodeResult)
    (hr : r = quiz_processing_node invoke cost now offset current_url
        url_time messages)
    (hu : current_url = some u) (ht : url_time u = some t)
    (hcond : now - t ≥ 180 ∨ (offset ≠ 0 ∧ now - offset > 90)) :
    r.overrode = true
      ∧ r.invoked = messages ++ [timeoutMessage]
      ∧ r.response = invoke (messages ++ [timeoutMessage]) := by
  have hpt : current_url.bind url_time = some t := by
    rw [hu]; simpa using ht
  have htrig : overrunTriggered now offset (current_url.bind url_time) = true := by
    rw [hpt]
    unfold overrunTriggered
    rcases hcond with h | ⟨h1, h2⟩
    · simp [h]
    · simp [h1, h2]
  subst hr
  unfold quiz_processing_node
  simp [htrig]

/-- Witness for `deadline_override_amended`: elapsed 190 ≥ 180 with a
recorded start triggers the override concretely. -/
theorem deadline_override_amended_witness :
    (quiz_processing_node
        (fun _ => { role := Role.assistant, content := Content.text "ok" })
        (fun _ => 1) 200 0 (some "u")
        (fun x => if x = "u" then some 10 else Option.none)
        (initial_message_stack "e" "s" "u")).overrode = true
      ∧ (quiz_processing_node
          (fun _ => { role := Role.assistant, content := Content.text "ok" })
          (fun _ => 1) 200 0 (some "u")
          (fun x => if x = "u" then some 10 else Option.none)
          (initial_message_stack "e" "s" "u")).invoked
        = initial_message_stack "e" "s" "u" ++ [timeoutMessage]
      ∧ (quiz_processing_node
          (fun _ => { role := Role.assistant, content := Content.text "ok" })
          (fun _ => 1) 200 0 (some "u")
          (fun x => if x = "u" then some 10 else Option.none)
          (initial_message_stack "e" "s" "u")).response
        = (fun _ => { role := Role.assistant, content := Content.text "ok" } :
            List Message → Message)
            (initial_message_stack "e" "s" "u" ++ [timeoutMessage]) :=
  deadline_override_amended _ _ _ _ _ _ _ "u" 10 _ rfl rfl rfl
    (Or.inl (by norm_num))

/-- C5: trimming is a pure view.  For an AGENT step without deadline
overrun, the stored conversation after the step is the stored conversation
before it plus exactly the one model response, however much the transient
view was trimmed; and when the trimmed view has no human message, exactly
one synthetic reminder naming the current URL is appended to the transient
view only, never to the stored conversation. -/
theorem trimming_pure_view
    (invoke : List Message → Message) (cost : Message → Nat)
    (now offset : ℚ) (current_url : Option String)
    (url_time : String → Option ℚ) (messages : List Message) (r : NodeResult)
    (hr : r = quiz_processing_node invoke cost now offset current_url
        url_time messages)
    (hno : overrunTriggered now offset (current_url.bind url_time) = false) :
    r.overrode = false
      ∧ (messages ++ [r.response]).take messages.length = messages
      ∧ (messages ++ [r.response]).length = messages.length + 1
      ∧ (hasHumanMessage (trim_messages cost TOKEN_LIMIT messages) = true →
          r.invoked = trim_messages cost TOKEN_LIMIT messages)
      ∧ (hasHumanMessage (trim_messages cost TOKEN_LIMIT messages) = false →
          r.invoked = trim_messages cost TOKEN_LIMIT messages
            ++ [reminderMessage (current_url.getD "Unknown URL")])
      ∧ (reminderMessage (current_url.getD "Unknown URL")).content
          = Content.text ("Context cleared due to length. "
              ++ "Continue processing URL: " ++ current_url.getD "Unknown URL") := by
  subst hr
  unfold quiz_processing_node
  simp only [hno, Bool.false_eq_true, if_false]
  refine ⟨by simp, List.take_left _ _, by simp, ?_, ?_, by simp [reminderMessage]⟩
  · intro h
    simp [h]
  · intro h
    simp [h]

/-- Witness for `trimming_pure_view` with no recorded start time (so no
overrun) and the freshly seeded two-message conversation. -/
theorem trimming_pure_view_witness :
    (quiz_processing_node
        (fun _ => { role := Role.assistant, content := Content.text "ok" })
        (fun _ => 1) 0 0 Option.none (fun _ => Option.none)
        (initial_message_stack "e" "s" "u")).overrode = false
      ∧ (initial_message_stack "e" "s" "u"
            ++ [(quiz_processing_node
                (fun _ => { role := Role.assistant, content := Content.text "ok" })
                (fun _ => 1) 0 0 Option.none (fun _ => Option.none)
                (initial_message_stack "e" "s" "u")).response]).take
            (initial_message_stack "e" "s" "u").length
          = initial_message_stack "e" "s" "u"
      ∧ (initial_message_stack "e" "s" "u"
            ++ [(quiz_processing_node
                (fun _ => { role := Role.assistant, content := Content.text "ok" })
                (fun _ => 1) 0 0 Option.none (fun _ => Option.none)
                (initial_message_stack "e" "s" "u")).response]).length
          = (initial_message_stack "e" "s" "u").length + 1
      ∧ (hasHumanMessage (trim_messages (fun _ => 1) TOKEN_LIMIT
              (initial_message_stack "e" "s" "u")) = true →
          (quiz_processing_node
              (fun _ => { role := Role.assistant, content := Content.text "ok" })
              (fun _ => 1) 0 0 Option.none (fun _ => Option.none)
              (initial_message_stack "e" "s" "u")).invoked
            = trim_messages (fun _ => 1) TOKEN_LIMIT
                (initial_message_stack "e" "s" "u"))
      ∧ (hasHumanMessage (trim_messages (fun _ => 1) TOKEN_LIMIT
              (initial_message_stack "e" "s" "u")) = false →
          (quiz_processing_node
              (fun _ => { role := Role.assistant, content := Content.text "ok" })
              (fun _ => 1) 0 0 Option.none (fun _ => Option.none)
              (initial_message_stack "e" "s" "u")).invoked
            = trim_messages (fun _ => 1) TOKEN_LIMIT
                (initial_message_stack "e" "s" "u")
              ++ [reminderMessage ((Option.none : Option String).getD "Unknown URL")])
      ∧ (reminderMessage ((Option.none : Option String).getD "Unknown URL")).content
          = Content.text ("Context cleared due to length. "
              ++ "Continue processing URL: "
              ++ (Option.none : Option String).getD "Unknown URL") :=
  trimming_pure_view _ _ _ _ _ _ _ _ rfl rfl

/-- Helper: a trimmed conversation that starts with a system message is
either empty or still starts with that system message. -/
lemma trim_system_head (cost : Message → Nat) (budget : Nat) (m0 : Message)
    (rest : List Message) (h : m0.role = Role.system) :
    trim_messages cost budget (m0 :: rest) = []
      ∨ ∃ restOut, trim_messages cost budget (m0 :: rest) = m0 :: restOut := by
  simp only [trim_messages]
  rw [if_pos h]
  by_cases hc : cost m0 ≤ budget
  · rw [if_pos hc]
    by_cases ha : dropUntilHuman (maxFitSuffix cost (budget - cost m0) rest) = []
    · left
      simp [ha]
    · right
      exact ⟨dropUntilHuman (maxFitSuffix cost (budget - cost m0) rest),
        by simp [ha]⟩
  · rw [if_neg hc]
    left
    rfl

/-- Helper: graph execution only appends to the stored conversation, so any
prefix of the messages is preserved. -/
lemma stepGraph_preserves_prefix (invoke : List Message → Message)
    (runTools : List ToolCall → List Message) (cost : Message → Nat)
    (now offset : ℚ) (current_url : Option String)
    (url_time : String → Option ℚ) :
    ∀ (fuel : Nat) (node : GraphNode) (st : RunStats) (l : List Message),
      (∃ r0, st.messages = l ++ r0) →
      ∃ r1, (stepGraph invoke runTools cost now offset current_url url_time
          fuel node st).stats.messages = l ++ r1 := by
  intro fuel
  induction fuel with
  | zero =>
      intro node st l h
      simpa [stepGraph, RunOutcome.stats] using h
  | succ n ih =>
      intro node st l h
      obtain ⟨r0, hr0⟩ := h
      cases node with
      | agent =>
          simp only [stepGraph]
          split
          · exact ⟨r0 ++ [(quiz_processing_node invoke cost now offset
              current_url url_time st.messages).response],
              by simp [RunOutcome.stats, afterAgent, hr0]⟩
          · exact ih _ _ _ ⟨r0 ++ [(quiz_processing_node invoke cost now offset
              current_url url_time st.messages).response],
              by simp [afterAgent, hr0]⟩
          · exact ih _ _ _ ⟨r0 ++ [(quiz_processing_node invoke cost now offset
              current_url url_time st.messages).response],
              by simp [afterAgent, hr0]⟩
          · exact ih _ _ _ ⟨r0 ++ [(quiz_processing_node invoke cost now offset
              current_url url_time st.messages).response],
              by simp [afterAgent, hr0]⟩
      | tools =>
          simp only [stepGraph]
          exact ih _ _ _ ⟨r0 ++ runTools (lastToolCalls st.messages),
            by simp [hr0]⟩
      | repair =>
          simp only [stepGraph]
          exact ih _ _ _ ⟨r0 ++ handle_json_error_node, by simp [hr0]⟩

/-- Helper: the AGENT-entry count grows by at most the step budget, and the
gateway-call count moves in lockstep with the AGENT-entry count. -/
lemma stepGraph_stats_invariant (invoke : List Message → Message)
    (runTools : List ToolCall → List Message) (cost : Message → Nat)
    (now offset : ℚ) (current_url : Option String)
    (url_time : String → Option ℚ) :
    ∀ (fuel : Nat) (node : GraphNode) (st : RunStats),
      (stepGraph invoke runTools cost now offset current_url url_time fuel
          node st).stats.agentEntries ≤ st.agentEntries + fuel
        ∧ (stepGraph invoke runTools cost now offset current_url url_time fuel
            node st).stats.gatewayCalls + st.agentEntries
          = (stepGraph invoke runTools cost now offset current_url url_time
              fuel node st).stats.agentEntries + st.gatewayCalls := by
  intro fuel
  induction fuel with
  | zero =>
      intro node st
      constructor <;> simp only [stepGraph, RunOutcome.stats] <;> omega
  | succ n ih =>
      intro node st
      have keyStep : ∀ (node2 : GraphNode) (st2 : RunStats),
          st2.agentEntries = st.agentEntries + 1 →
          st2.gatewayCalls = st.gatewayCalls + 1 →
          (stepGraph invoke runTools cost now offset current_url url_time n
              node2 st2).stats.agentEntries ≤ st.agentEntries + (n + 1)
            ∧ (stepGraph invoke runTools cost now offset current_url url_time
                n node2 st2).stats.gatewayCalls + st.agentEntries
              = (stepGraph invoke runTools cost now offset current_url
                  url_time n node2 st2).stats.agentEntries
                + st.gatewayCalls := by
        intro node2 st2 e1 e2
        obtain ⟨g1, g2⟩ := ih node2 st2
        constructor <;> omega
      have keySame : ∀ (st2 : RunStats),
          st2.agentEntries = st.agentEntries →
          st2.gatewayCalls = st.gatewayCalls →
          (stepGraph invoke runTools cost now offset current_url url_time n
              GraphNode.agent st2).stats.agentEntries
              ≤ st.agentEntries + (n + 1)
            ∧ (stepGraph invoke runTools cost now offset current_url url_time
                n GraphNode.agent st2).stats.gatewayCalls + st.agentEntries
              = (stepGraph invoke runTools cost now offset current_url
                  url_time n GraphNode.agent st2).stats.agentEntries
                + st.gatewayCalls := by
        intro st2 e1 e2
        obtain ⟨g1, g2⟩ := ih GraphNode.agent st2
        constructor <;> omega
      cases node with
      | agent =>
          simp only [stepGraph]
          split
          · refine ⟨?_, ?_⟩ <;> simp only [RunOutcome.stats, afterAgent] <;> omega
          · exact keyStep _ _ rfl rfl
          · exact keyStep _ _ rfl rfl
          · exact keyStep _ _ rfl rfl
      | tools =>
          simp only [stepGraph]
          exact keySame _ rfl rfl
      | repair =>
          simp only [stepGraph]
          exact keySame _ rfl rfl

/-- C2 counterexample: with per-message costs (1, 50, 1, 1) and budget 3,
trimming a conversation that starts with the seeded system and user
messages keeps the system message and the latest human message but evicts
the initial user message (the task URL) from the transient view, contrary
to the claim that the two leading messages always survive trimming. -/
theorem trimming_evicts_initial_user_counterexample :
    trim_messages
        (fun m => if m = initial_user_message "http://x/q1" then 50 else 1) 3
        [system_message "e" "s", initial_user_message "http://x/q1",
         { role := Role.assistant, content := Content.text "step" },
         { role := Role.user, content := Content.text "more" }]
      = [system_message "e" "s",
         { role := Role.user, content := Content.text "more" }]
      ∧ initial_user_message "http://x/q1"
          ∉ trim_messages
              (fun m => if m = initial_user_message "http://x/q1" then 50 else 1) 3
              [system_message "e" "s", initial_user_message "http://x/q1",
               { role := Role.assistant, content := Content.text "step" },
               { role := Role.user, content := Content.text "more" }] :=
  ⟨rfl, by decide⟩

/-- C2 (amended): every stored conversation produced by a run starts with
exactly the seeded system message followed by the seeded task-URL user
message; the trimmed transient view, whenever it is non-empty, still starts
with the leading system message — but the initial user message can be
evicted from the view by trimming. -/
theorem conversation_prefix_amended (invoke : List Message → Message)
    (runTools : List ToolCall → List Message) (cost trimCost : Message → Nat)
    (budget : Nat) (now offset : ℚ) (current_url : Option String)
    (url_time : String → Option ℚ) (email secret quiz_url : String)
    (m0 : Message) (rest : List Message) (hm0 : m0.role = Role.system) :
    ((run_agent invoke runTools cost now offset current_url url_time email
        secret quiz_url).stats.messages).take 2
        = [system_message email secret, initial_user_message quiz_url]
      ∧ (trim_messages trimCost budget (m0 :: rest) = []
          ∨ ∃ restOut,
              trim_messages trimCost budget (m0 :: rest) = m0 :: restOut) := by
  constructor
  · obtain ⟨r1, hr1⟩ := stepGraph_preserves_prefix invoke runTools cost now
      offset current_url url_time MAX_RECURSION_DEPTH GraphNode.agent
      { messages := initial_message_stack email secret quiz_url
        agentEntries := 0
        gatewayCalls := 0 }
      (initial_message_stack email secret quiz_url) ⟨[], by simp⟩
    unfold run_agent
    rw [hr1]
    simp [initial_message_stack]
  · exact trim_system_head trimCost budget m0 rest hm0

/-- Witness for `conversation_prefix_amended` at concrete parameters. -/
theorem conversation_prefix_amended_witness :
    ((run_agent (fun _ => { role := Role.assistant, content := Content.text "END" })
        (fun _ => []) (fun _ => 1) 0 0 Option.none (fun _ => Option.none)
        "e" "s" "http://x/q1").stats.messages).take 2
        = [system_message "e" "s", initial_user_message "http://x/q1"]
      ∧ (trim_messages (fun _ => 1) 0 (system_message "e" "s" :: []) = []
          ∨ ∃ restOut, trim_messages (fun _ => 1) 0 (system_message "e" "s" :: [])
              = system_message "e" "s" :: restOut) :=
  conversation_prefix_amended _ _ _ _ _ _ _ _ _ "e" "s" "http://x/q1"
    (system_message "e" "s") [] rfl

/-- C6: the run enters AGENT at most `MAX_RECURSION_DEPTH = 5000` times;
gateway calls move in lockstep with AGENT entries (one call per entry), so
an aborted run has issued no gateway call beyond its counted AGENT entries;
and a spent step budget aborts the run with the recursion-limit error
instead of executing any further node. -/
theorem recursion_ceiling (invoke : List Message → Message)
    (runTools : List ToolCall → List Message) (cost : Message → Nat)
    (now offset : ℚ) (current_url : Option String)
    (url_time : String → Option ℚ) (email secret quiz_url : String)
    (node : GraphNode) (st : RunStats) :
    (run_agent invoke runTools cost now offset current_url url_time email
        secret quiz_url).stats.agentEntries ≤ MAX_RECURSION_DEPTH
      ∧ (run_agent invoke runTools cost now offset current_url url_time email
          secret quiz_url).stats.gatewayCalls
        = (run_agent invoke runTools cost now offset current_url url_time
            email secret quiz_url).stats.agentEntries
      ∧ stepGraph invoke runTools cost now offset current_url url_time 0 node
          st = RunOutcome.recursionLimitExceeded st := by
  obtain ⟨h1, h2⟩ := stepGraph_stats_invariant invoke runTools cost now offset
    current_url url_time MAX_RECURSION_DEPTH GraphNode.agent
    { messages := initial_message_stack email secret quiz_url
      agentEntries := 0
      gatewayCalls := 0 }
  unfold run_agent
  refine ⟨le_trans h1 (by simp), by simpa using h2, by cases node <;> rfl⟩

/-- C7 counterexample: a body whose `url` field is present but empty and
whose secret is correct is rejected with 400 and schedules nothing, whereas
the claim's `otherwise` branch (fields present, secret matching) promises a
200 acknowledgment with a scheduled run — Python rejects empty-string
fields because `not quiz_url` is true on `""`. -/
theorem solve_empty_url_counterexample :
    process_quiz_request "s3cret" 0
        (some { url := some "", secret := some "s3cret" })
        { url_time := [], BASE64_STORE := []
          env_url := Option.none, env_offset := Option.none }
      = (SolveResponse.invalidJson,
          { url_time := [], BASE64_STORE := []
            env_url := Option.none, env_offset := Option.none }, [])
      ∧ SolveResponse.invalidJson.statusCode = 400
      ∧ SolveResponse.invalidJson.statusCode ≠ 200 :=
  ⟨rfl, rfl, by decide⟩

/-- C7 (amended): an unparseable body, or a missing or empty `url` or
`secret` field, yields the 400 rejection with nothing scheduled; a
non-empty wrong secret yields the 403 rejection with nothing scheduled;
otherwise the timing and cache stores are cleared, the url/offset
environment configuration is reset, the accepted URL's start time is
recorded, exactly one background run for it is scheduled, and the response
is the 200 ok acknowledgment. -/
theorem solve_request_amended (AUTH_SECRET : String) (now : ℚ)
    (request_json : Option SolveRequest) (st : ServerState) (u s : String)
    (hu : u ≠ "") (hs : s ≠ "") :
    ((request_json = Option.none
        ∨ (∃ b, request_json = some b
            ∧ (b.url = Option.none ∨ b.url = some ""
                ∨ b.secret = Option.none ∨ b.secret = some ""))) →
      process_quiz_request AUTH_SECRET now request_json st
        = (SolveResponse.invalidJson, st, []))
    ∧ (s ≠ AUTH_SECRET →
        process_quiz_request AUTH_SECRET now
            (some { url := some u, secret := some s }) st
          = (SolveResponse.invalidSecret, st, []))
    ∧ (s = AUTH_SECRET →
        process_quiz_request AUTH_SECRET now
            (some { url := some u, secret := some s }) st
          = (SolveResponse.ok,
              { url_time := [(u, now)], BASE64_STORE := []
                env_url := some u, env_offset := some "0" }, [u])) := by
  refine ⟨?_, ?_, ?_⟩
  · rintro (rfl | ⟨⟨bu, bs⟩, rfl, hbad⟩)
    · rfl
    · rcases bu with _ | u2 <;> rcases bs with _ | s2
      · rfl
      · rfl
      · rfl
      · rcases hbad with h | h | h | h <;> simp only [Option.some.injEq] at h
        all_goals first
          | exact absurd h (by simp)
          | (subst h; simp [process_quiz_request])
  · intro hne
    simp [process_quiz_request, hu, hs, hne]
  · intro heq
    subst heq
    simp [process_quiz_request, hu, hs]

/-- Witness for `solve_request_amended` at concrete parameters: empty body
rejected 400, wrong secret rejected 403, matching secret accepted 200 with
one scheduled run. -/
theorem solve_request_amended_witness :
    ((Option.none = (Option.none : Option SolveRequest)
        ∨ (∃ b, (Option.none : Option SolveRequest) = some b
            ∧ (b.url = Option.none ∨ b.url = some ""
                ∨ b.secret = Option.none ∨ b.secret = some ""))) →
      process_quiz_request "s3cret" 7 Option.none
          { url_time := [("old", 1)], BASE64_STORE := [("k", "v")]
            env_url := some "old", env_offset := some "5" }
        = (SolveResponse.invalidJson,
            { url_time := [("old", 1)], BASE64_STORE := [("k", "v")]
              env_url := some "old", env_offset := some "5" }, []))
    ∧ ("s3cret" ≠ "s3cret" →
        process_quiz_request "s3cret" 7
            (some { url := some "http://x/q1", secret := some "s3cret" })
            { url_time := [("old", 1)], BASE64_STORE := [("k", "v")]
              env_url := some "old", env_offset := some "5" }
          = (SolveResponse.invalidSecret,
              { url_time := [("old", 1)], BASE64_STORE := [("k", "v")]
                env_url := some "old", env_offset := some "5" }, []))
    ∧ ("s3cret" = "s3cret" →
        process_quiz_request "s3cret" 7
            (some { url := some "http://x/q1", secret := some "s3cret" })
            { url_time := [("old", 1)], BASE64_STORE := [("k", "v")]
              env_url := some "old", env_offset := some "5" }
          = (SolveResponse.ok,
              { url_time := [("http://x/q1", 7)], BASE64_STORE := []
                env_url := some "http://x/q1", env_offset := some "0" },
              ["http://x/q1"])) :=
  solve_request_amended "s3cret" 7 Option.none
    { url_time := [("old", 1)], BASE64_STORE := [("k", "v")]
      env_url := some "old", env_offset := some "5" }
    "http://x/q1" "s3cret" (by decide) (by decide)

/-- C10: every rejected `/solve` request (400 or 403) leaves the
process-wide state — timing store, base64 cache, url/offset environment
configuration — exactly as it was, and schedules no background task;
mutation and scheduling happen only on the accepted path. -/
theorem solve_rejection_no_side_effects (AUTH_SECRET : String) (now : ℚ)
    (request_json : Option SolveRequest) (st : ServerState)
    (h : (process_quiz_request AUTH_SECRET now request_json st).1
          = SolveResponse.invalidJson
        ∨ (process_quiz_request AUTH_SECRET now request_json st).1
          = SolveResponse.invalidSecret) :
    (process_quiz_request AUTH_SECRET now request_json st).2.1 = st
      ∧ (process_quiz_request AUTH_SECRET now request_json st).2.2 = [] := by
  rcases request_json with _ | ⟨bu, bs⟩
  · exact ⟨rfl, rfl⟩
  · rcases bu with _ | u <;> rcases bs with _ | s
    · exact ⟨rfl, rfl⟩
    · exact ⟨rfl, rfl⟩
    · exact ⟨rfl, rfl⟩
    · by_cases h1 : u = "" ∨ s = ""
      · simp [process_quiz_request, h1]
      · by_cases h2 : s = AUTH_SECRET
        · exfalso
          subst h2
          simp [process_quiz_request, h1] at h
        · simp [process_quiz_request, h1, h2]

/-- Witness for `solve_rejection_no_side_effects` at a concrete 403
rejection. -/
theorem solve_rejection_no_side_effects_witness :
    (process_quiz_request "s3cret" 7
        (some { url := some "http://x/q1", secret := some "wrong" })
        { url_time := [("old", 1)], BASE64_STORE := [("k", "v")]
          env_url := some "old", env_offset := some "5" }).2.1
      = { url_time := [("old", 1)], BASE64_STORE := [("k", "v")]
          env_url := some "old", env_offset := some "5" }
      ∧ (process_quiz_request "s3cret" 7
          (some { url := some "http://x/q1", secret := some "wrong" })
          { url_time := [("old", 1)], BASE64_STORE := [("k", "v")]
            env_url := some "old", env_offset := some "5" }).2.2 = [] :=
  solve_rejection_no_side_effects "s3cret" 7
    (some { url := some "http://x/q1", secret := some "wrong" })
    { url_time := [("old", 1)], BASE64_STORE := [("k", "v")]
      env_url := some "old", env_offset := some "5" }
    (Or.inr rfl)

/-- C8: every tool in the manifest converts an internal exception of its
body into a textual error result instead of propagating it — `run_code`
returns the error in the stderr field of its result dictionary,
`download_file` and `get_rendered_html` return prefixed error strings, and
the manifest entries whose implementations are outside `src/`
(spec-modelled per §4.4) return the error text as their result.  All the
embedded wrappers are total functions, so a single tool failure never
aborts the run. -/
theorem tool_failures_contained (e : String)
    (source_url target_filename target_url : String) :
    run_code (Except.error e) = RunCodeResult.dict "" e (-1)
      ∧ download_file (Except.error e) source_url target_filename
          = "Error downloading file: " ++ e
      ∧ get_rendered_html (Except.error e) target_url
          = ScrapeResult.error ("Error fetching/rendering page: " ++ e)
      ∧ post_request (Except.error e) = "Error: " ++ e
      ∧ add_dependencies (Except.error e) = "Error: " ++ e
      ∧ ocr_image_tool (Except.error e) = "Error: " ++ e
      ∧ transcribe_audio (Except.error e) = "Error: " ++ e
      ∧ encode_image_to_base64 (Except.error e) = "Error: " ++ e :=
  ⟨rfl, rfl, rfl, rfl, rfl, rfl, rfl, rfl⟩

/-- C9: when the subprocess succeeds, a stdout of length ≥ 10000 makes
`run_code` return a bare truncated string (discarding stderr and the exit
code); failing that, a stderr of length ≥ 10000 does the same (discarding
stdout and the exit code); only when both streams are under 10000
characters is the documented `{stdout, stderr, return_code}` dictionary
returned. -/
theorem run_code_truncation (std_output std_error : String)
    (returncode : Int) :
    (std_output.length ≥ 10000 →
        run_code (Except.ok (std_output, std_error, returncode))
          = RunCodeResult.text (pyTake std_output 10000
              ++ "...truncated due to large size"))
      ∧ (std_output.length < 10000 → std_error.length ≥ 10000 →
          run_code (Except.ok (std_output, std_error, returncode))
            = RunCodeResult.text (pyTake std_error 10000
                ++ "...truncated due to large size"))
      ∧ (std_output.length < 10000 → std_error.length < 10000 →
          run_code (Except.ok (std_output, std_error, returncode))
            = RunCodeResult.dict std_output std_error returncode) := by
  refine ⟨?_, ?_, ?_⟩
  · intro h
    simp [run_code, h]
  · intro h1 h2
    simp [run_code, Nat.not_le.mpr h1, h2]
  · intro h1 h2
    simp [run_code, Nat.not_le.mpr h1, Nat.not_le.mpr h2]

/-- Witness for `run_code_truncation`: a 10000-character stdout is
truncated to a bare string, a 10000-character stderr likewise when stdout
is short, and short streams return the dictionary. -/
theorem run_code_truncation_witness :
    (run_code (Except.ok ((⟨List.replicate 10000 (Char.ofNat 97)⟩ : String),
          "err", 0))
        = RunCodeResult.text (pyTake
            (⟨List.replicate 10000 (Char.ofNat 97)⟩ : String) 10000
            ++ "...truncated due to large size"))
      ∧ (run_code (Except.ok ("out",
            (⟨List.replicate 10000 (Char.ofNat 97)⟩ : String), 0))
          = RunCodeResult.text (pyTake
              (⟨List.replicate 10000 (Char.ofNat 97)⟩ : String) 10000
              ++ "...truncated due to large size"))
      ∧ (run_code (Except.ok ("out", "err", 0))
          = RunCodeResult.dict "out" "err" 0) :=
  ⟨(run_code_truncation _ "err" 0).1
      (le_of_eq (List.length_replicate 10000 (Char.ofNat 97)).symm),
   (run_code_truncation "out" _ 0).2.1 (by decide)
      (le_of_eq (List.length_replicate 10000 (Char.ofNat 97)).symm),
   (run_code_truncation "out" "err" 0).2.2 (by decide) (by decide)⟩

end QuizAgent
